import Mathlib

/-!
# asclepius-be: the `/predict` pipeline, the health route and the startup sequence

A shallow embedding of `src/index.js` and `src/ml.js`.

* JavaScript values that the code only compares or copies are embedded as the
  Lean values they range over (`JSNum` for an element of the `Float32Array`
  returned by `model.predict(...).data()`, `String` for strings,
  `Option` for a property that may be `undefined`).
* Stateful code is embedded by explicit state passing: a request run is the
  synchronous body of the handler followed by the delivery of the stream
  events to the listeners the handler registered; every observable action is
  appended to a trace.
-/

namespace Asclepius

/-! ## Numbers read from the model output -/

/-- A JavaScript number as the threshold test sees it. Every finite
`Float32Array` element is a rational, so `fin q` covers the finite values;
the three remaining cases are the IEEE special values. -/
inductive JSNum where
  | nan
  | negInf
  | posInf
  | fin (q : ℚ)
  deriving DecidableEq, Repr

/-- The JavaScript relational operator `a > b` (false as soon as one side is
`NaN`). -/
def JSNum.gt : JSNum → JSNum → Bool
  | .nan, _ => false
  | _, .nan => false
  | .posInf, .posInf => false
  | .posInf, _ => true
  | .negInf, _ => false
  | .fin _, .posInf => false
  | .fin _, .negInf => true
  | .fin a, .fin b => decide (b < a)

/-- The literal `0.5`. -/
def half : JSNum := .fin (1 / 2)

/-- The element access `predictions[0]` followed by the numeric conversion that
`>` applies: an index past the end reads `undefined`, which converts to
`NaN`. -/
def firstScalar (predictions : List JSNum) : JSNum :=
  match predictions with
  | [] => .nan
  | p :: _ => p

/-! ## Result Recorder (index.js, lines 96 and 99) -/

/-- Line 96: `predictions[0] > 0.5 ? 'Cancer' : 'Non-cancer'`. -/
def resultOf (predictions : List JSNum) : String :=
  if (firstScalar predictions).gt half then "Cancer" else "Non-cancer"

/-- Line 99: `result === 'Cancer' ? 'Segera periksa ke dokter!' : 'Penyakit kanker tidak terdeteksi.'`. -/
def suggestionOf (result : String) : String :=
  if result = "Cancer" then "Segera periksa ke dokter!" else "Penyakit kanker tidak terdeteksi."

/-! ## Requests, responses and the observable actions of a request -/

/-- The `data` object of a success response. -/
structure PredictionData where
  id : String
  result : String
  suggestion : String
  createdAt : String
  deriving DecidableEq, Repr

/-- The object literals the route code builds: `{status, message}` with an
optional `data` property. -/
structure Response where
  status : String
  message : String
  data : Option PredictionData
  deriving DecidableEq, Repr

/-- The document passed to `doc(id).set(...)`. -/
structure PredictionRecord where
  result : String
  suggestion : String
  createdAt : String
  deriving DecidableEq, Repr

/-- The metadata object `image.hapi`; `mimetype` is the declared MIME type, a
string, or `none` when the property is `undefined`. -/
structure HapiMeta where
  mimetype : Option String
  deriving DecidableEq, Repr

/-- A truthy value of `request.payload.image`. `hapi` is `none` when the
property is missing (a plain text field, for instance); `isStream` tells
whether the value has a callable `on` method. -/
structure ImageField where
  hapi : Option HapiMeta
  isStream : Bool
  deriving DecidableEq, Repr

/-- The parsed payload: `image` is `none` when the field is absent or falsy. -/
structure Payload where
  image : Option ImageField
  deriving DecidableEq, Repr

/-- An event emitted by the upload stream. -/
inductive StreamEvent where
  | data (chunk : List Nat)
  | end_
  | error (err : String)
  deriving DecidableEq, Repr

/-- Observable actions of one request, in the order they happen. `respond v`
is the moment the handler's promise settles with `v` (`none` is
`undefined`). -/
inductive Effect where
  | log (text : String)
  | predict (buffer : List Nat)
  | docSet (collection : String) (id : String) (record : PredictionRecord)
  | respond (value : Option Response)
  deriving DecidableEq, Repr

/-- What the collaborators answer during one request: the awaited outcome of
`predict(model, buffer)`, the draw of `Math.random().toString(36).substring(2)`,
the clock reading `new Date().toISOString()`, and the awaited outcome of the
store write. -/
structure Env where
  predict : List Nat → Except String (List JSNum)
  randomId : String
  now : String
  docSet : String → PredictionRecord → Except String Unit

/-! ## POST /predict (index.js, lines 60 to 144) -/

/-- The method `String.prototype.startsWith`. -/
def startsWith (s pre : String) : Bool := pre.data.isPrefixOf s.data

/-- The test of line 76:
`!image.hapi || !image.hapi.mimetype || !image.hapi.mimetype.startsWith('image/')`.
The empty string is falsy. -/
def invalidFormat (image : ImageField) : Bool :=
  match image.hapi with
  | none => true
  | some m =>
    match m.mimetype with
    | none => true
    | some mt => mt == "" || !(startsWith mt "image/")

def imageNotProvided : Response :=
  { status := "fail", message := "Image not provided", data := none }

def invalidImageFormat : Response :=
  { status := "fail", message := "Invalid image format. Please upload a valid image.", data := none }

def processingError : Response :=
  { status := "error", message := "An error occurred while processing your request.", data := none }

def streamError : Response :=
  { status := "fail", message := "Error processing the image", data := none }

def unexpectedError : Response :=
  { status := "error", message := "An unexpected error occurred.", data := none }

/-- The mutable state of one request after the handler has run: the local
array `chunks`, the trace so far, and the values the listeners returned. An
`EventEmitter` ignores what a listener returns, so `dropped` is read by
nobody. -/
structure ReqState where
  chunks : List (List Nat)
  trace : List Effect
  dropped : List Response
  deriving DecidableEq, Repr

/-- The `data` listener (line 86): `chunks.push(chunk)`. -/
def onData (chunk : List Nat) (s : ReqState) : ReqState :=
  { s with chunks := s.chunks ++ [chunk] }

/-- The `end` listener (lines 90 to 128): the next state and the value its
promise resolves to. -/
def onEnd (env : Env) (s : ReqState) : ReqState × Response :=
  let buffer := s.chunks.flatten
  match env.predict buffer with
  | .error _ =>
    ({ s with trace := s.trace ++ [.predict buffer, .log "Error during prediction:"] },
      processingError)
  | .ok predictions =>
    let result := resultOf predictions
    let suggestion := suggestionOf result
    let id := env.randomId
    let createdAt := env.now
    let record : PredictionRecord :=
      { result := result, suggestion := suggestion, createdAt := createdAt }
    match env.docSet id record with
    | .error _ =>
      ({ s with trace := s.trace ++
          [.predict buffer, .docSet "predictions" id record, .log "Error during prediction:"] },
        processingError)
    | .ok _ =>
      ({ s with trace := s.trace ++ [.predict buffer, .docSet "predictions" id record] },
        { status := "success", message := "Model is predicted successfully",
          data := some { id := id, result := result, suggestion := suggestion,
                         createdAt := createdAt } })

/-- The `error` listener (lines 130 to 136). -/
def onError (_err : String) (s : ReqState) : ReqState × Response :=
  ({ s with trace := s.trace ++ [.log "Error reading the image stream:"] }, streamError)

/-- Delivery of one stream event to the registered listeners. The emitter
calls the listener and discards its return value. -/
def emit (env : Env) (s : ReqState) : StreamEvent → ReqState
  | .data chunk => onData chunk s
  | .end_ =>
    let r := onEnd env s
    { r.1 with dropped := r.1.dropped ++ [r.2] }
  | .error err =>
    let r := onError err s
    { r.1 with dropped := r.1.dropped ++ [r.2] }

/-- How the synchronous body of the handler leaves: the value it returns
(`none` when control falls off the end of the function, that is `undefined`),
the lines it logged, and whether the three listeners are registered. -/
structure HandlerExit where
  returned : Option Response
  logged : List String
  listening : Bool
  deriving DecidableEq, Repr

/-- The handler of POST /predict up to the point where its promise settles.
Inside the `try` the three calls of `image.on` register listeners and return;
no statement after them returns a value. When `image.on` is not callable the
first call throws and the outer `catch` answers. -/
def handler (payload : Payload) : HandlerExit :=
  match payload.image with
  | none =>
    { returned := some imageNotProvided, logged := ["Uploaded image:"], listening := false }
  | some image =>
    if invalidFormat image then
      { returned := some invalidImageFormat, logged := ["Uploaded image:"], listening := false }
    else if image.isStream then
      { returned := none, logged := ["Uploaded image:"], listening := true }
    else
      { returned := some unexpectedError, logged := ["Uploaded image:", "Unexpected error:"],
        listening := false }

/-- The outcome of a whole request. -/
structure RequestRun where
  response : Option Response
  trace : List Effect
  dropped : List Response
  deriving DecidableEq, Repr

/-- One request: the handler runs to completion and its promise settles; the
stream events are then delivered, in order, to the listeners if the handler
registered them. JavaScript runs a function body to completion before any
event callback, so no event precedes `respond`. -/
def runRequest (env : Env) (payload : Payload) (events : List StreamEvent) : RequestRun :=
  let h := handler payload
  let s0 : ReqState :=
    { chunks := [], trace := h.logged.map Effect.log ++ [.respond h.returned], dropped := [] }
  let s := if h.listening then events.foldl (emit env) s0 else s0
  { response := h.returned, trace := s.trace, dropped := s.dropped }

/-- The calls of `predict` in a trace. -/
def predictCalls (t : List Effect) : List (List Nat) :=
  t.filterMap fun e => match e with
    | .predict b => some b
    | _ => none

/-- The store writes in a trace. -/
def storeWrites (t : List Effect) : List (String × PredictionRecord) :=
  t.filterMap fun e => match e with
    | .docSet _ id r => some (id, r)
    | _ => none

/-! ## The onPreResponse extension (index.js, lines 33 to 47) -/

/-- The payload of a framework error, `response.output.payload`. -/
structure BoomPayload where
  statusCode : Nat
  error : String
  message : String
  deriving DecidableEq, Repr

/-- The `output` property of a framework error. -/
structure BoomOutput where
  statusCode : Nat
  payload : BoomPayload
  deriving DecidableEq, Repr

/-- The value of `request.response` when the extension runs: a framework
error (the only values with a truthy `isBoom`) or an ordinary response
carrying what the handler returned. -/
inductive LifecycleResponse where
  | boom (message : String) (output : BoomOutput)
  | plain (source : Response) (statusCode : Nat)
  deriving DecidableEq, Repr

/-- The property `response.isBoom`. -/
def LifecycleResponse.isBoom : LifecycleResponse → Bool
  | .boom _ _ => true
  | .plain _ _ => false

/-- The object given to `h.response(...)` on line 39. -/
structure ErrorEnvelope where
  status : String
  message : String
  data : BoomPayload
  deriving DecidableEq, Repr

/-- What an extension returns: `h.continue`, or a new response built with
`h.response(body).code(statusCode)`. -/
inductive ExtReturn where
  | continue_
  | takeover (body : ErrorEnvelope) (statusCode : Nat)
  deriving DecidableEq, Repr

/-- The extension function registered for `onPreResponse`. -/
def onPreResponse (response : LifecycleResponse) : ExtReturn :=
  match response with
  | .boom message output =>
    .takeover { status := "error", message := message, data := output.payload } output.statusCode
  | .plain _ _ => .continue_

/-- What goes on the wire. -/
inductive Sent where
  | unchanged (response : LifecycleResponse)
  | envelope (body : ErrorEnvelope) (statusCode : Nat)
  deriving DecidableEq, Repr

/-- The framework's treatment of the extension's return value: `h.continue`
leaves `request.response` as it is, a new response replaces it. -/
def sendAfterExt (response : LifecycleResponse) : Sent :=
  match onPreResponse response with
  | .continue_ => .unchanged response
  | .takeover body code => .envelope body code

/-! ## GET /health (index.js, lines 151 to 156) -/

/-- What a route handler can reach through its closure: the loaded model and
the store. The model is kept as the function from a buffer to its awaited
output. -/
structure ServerState where
  model : List Nat → Except String (List JSNum)
  store : List (String × PredictionRecord)

/-- The part of an incoming request the handlers can read. -/
structure Request where
  method : String
  path : String
  payload : Payload
  deriving DecidableEq, Repr

/-- The handler of GET /health; `request` and the closure are in scope and
unused. -/
def healthHandler (_state : ServerState) (_request : Request) : Response :=
  { status := "success", message := "Server is running smoothly", data := none }

/-! ## The startup sequence (index.js, lines 7 to 30 and 165 to 177) -/

/-- Observable actions of the process at startup. -/
inductive BootAction where
  | loadModel
  | log (text : String)
  | createServer (port : String) (host : String)
  | ext (event : String)
  | route (method : String) (path : String)
  | start
  | exit (code : Nat)
  deriving DecidableEq, Repr

/-- What the surroundings answer at startup: whether the credentials load
(lines 7 to 13), the awaited outcome of `loadModel()`, the variable `PORT`,
and the awaited outcome of `server.start()`. -/
structure BootEnv where
  credentials : Except String Unit
  loadModel : Except String Unit
  port : Option String
  start : Except String Unit

/-- The port `process.env.PORT || 3000`: an unset or empty variable gives the default. -/
def portOf (env : BootEnv) : String :=
  match env.port with
  | none => "3000"
  | some p => if p = "" then "3000" else p

/-- The async function `init`: its actions and how its promise settles. -/
def init (env : BootEnv) : List BootAction × Except String Unit :=
  match env.loadModel with
  | .error e => ([.loadModel], .error e)
  | .ok _ =>
    let setup : List BootAction :=
      [.loadModel, .log "Model loaded!", .createServer (portOf env) "0.0.0.0",
       .ext "onPreResponse", .route "POST" "/predict", .route "GET" "/health",
       .ext "onPreHandler", .start]
    match env.start with
    | .error e => (setup, .error e)
    | .ok _ => (setup ++ [.log "Server running on"], .ok ())

/-- The state of the process once startup has settled. -/
structure Process where
  trace : List BootAction
  exitCode : Option Nat
  listening : Bool
  deriving DecidableEq, Repr

/-- The module body: the credentials are loaded, the `unhandledRejection`
handler is installed, `init()` is called and its promise is left without a
`catch`; a rejection therefore reaches the handler, which logs the error and
calls `process.exit(1)`. A throw while loading the credentials ends the
process before `init` is called. -/
def main (env : BootEnv) : Process :=
  match env.credentials with
  | .error _ => { trace := [], exitCode := some 1, listening := false }
  | .ok _ =>
    match init env with
    | (t, .error e) => { trace := t ++ [.log e, .exit 1], exitCode := some 1, listening := false }
    | (t, .ok _) => { trace := t, exitCode := none, listening := true }

/-! ## The tensor built by `predict` (ml.js, lines 9 to 14)

TensorFlow.js is a dependency, not part of the repository. The operations
are embedded at the level of tensor shapes, following the library's
documentation. -/

/-- The container formats `decodeImage` recognises. -/
inductive ImageFormat where
  | jpeg
  | png
  | gif
  | bmp
  deriving DecidableEq, Repr

/-- A decodable image file: its format, its size, the number of channels it
stores and the number of frames (1 for a still image). -/
structure ImageFile where
  format : ImageFormat
  height : Nat
  width : Nat
  channels : Nat
  frames : Nat
  deriving DecidableEq, Repr

/-- Shape of `tfjs.node.decodeImage(content, channels)`: a GIF decodes to the
4-D tensor `[frames, height, width, 3]` (animations are expanded by default),
every other format to the 3-D tensor `[height, width, channels]`, where the
argument 0 keeps the file's own channel count. -/
def decodeImage (img : ImageFile) (channels : Nat) : List Nat :=
  match img.format with
  | .gif => [img.frames, img.height, img.width, 3]
  | _ => [img.height, img.width, if channels = 0 then img.channels else channels]

/-- Shape of `x.resizeBilinear([newHeight, newWidth])`: defined on tensors of
rank 3 or 4, it replaces the two spatial dimensions and keeps the rank. -/
def resizeBilinear (shape : List Nat) (size : Nat × Nat) : Except String (List Nat) :=
  match shape with
  | [_, _, c] => .ok [size.1, size.2, c]
  | [b, _, _, c] => .ok [b, size.1, size.2, c]
  | _ => .error "resizeBilinear: x must be rank 3 or 4"

/-- Shape of `x.expandDims(axis)`: a dimension of size 1 is inserted at
`axis`. -/
def expandDims (shape : List Nat) (axis : Nat) : List Nat :=
  shape.take axis ++ [1] ++ shape.drop axis

/-- Shape of `x.toFloat()`: a cast keeps the shape. -/
def toFloat (shape : List Nat) : List Nat := shape

/-- Shape of `x.div(tfjs.scalar(255))`: dividing by a scalar keeps the
shape. -/
def divScalar (shape : List Nat) : List Nat := shape

/-- Shape of the local `tensor` of `predict`, the argument of
`model.predict`. -/
def predictTensor (img : ImageFile) : Except String (List Nat) :=
  match resizeBilinear (decodeImage img 3) (224, 224) with
  | .error e => .error e
  | .ok resized => .ok (divScalar (toFloat (expandDims resized 0)))

/-- The two label and advisory pairs of the specification. -/
def InSync (result suggestion : String) : Prop :=
  (result = "Cancer" ∧ suggestion = "Segera periksa ke dokter!") ∨
  (result = "Non-cancer" ∧ suggestion = "Penyakit kanker tidak terdeteksi.")

instance (result suggestion : String) : Decidable (InSync result suggestion) := by
  unfold InSync; infer_instance

/-! ## Concrete inputs -/

/-- A request whose image field is a stream announced as `image/png`. -/
def pngUpload : Payload :=
  { image := some { hapi := some { mimetype := some "image/png" }, isStream := true } }

/-- Collaborators for which the model answers 0.9 and the store accepts the
write. -/
def envCancer : Env :=
  { predict := fun _ => .ok [.fin (9 / 10)]
    randomId := "k3x9q0z"
    now := "2024-01-01T00:00:00.000Z"
    docSet := fun _ _ => .ok () }

/-- The same collaborators with a store that refuses the write. -/
def envWriteFails : Env :=
  { envCancer with docSet := fun _ _ => .error "UNAVAILABLE" }

/-- An animated image of two frames. -/
def twoFrameGif : ImageFile :=
  { format := .gif, height := 10, width := 10, channels := 3, frames := 2 }

/-- A startup at which the credentials load and the model fetch is refused. -/
def bootModelDown : BootEnv :=
  { credentials := .ok (), loadModel := .error "fetch failed", port := none, start := .ok () }

/-- A still image with an alpha channel. -/
def rgbaPng : ImageFile :=
  { format := .png, height := 600, width := 450, channels := 4, frames := 1 }

/-! ## Theorems -/

/-! ### Shared lemmas on the request run -/

theorem inSync_resultOf (predictions : List JSNum) :
    InSync (resultOf predictions) (suggestionOf (resultOf predictions)) := by
  unfold InSync resultOf suggestionOf
  split <;> simp

theorem storeWrites_append (t u : List Effect) :
    storeWrites (t ++ u) = storeWrites t ++ storeWrites u := by
  simp [storeWrites, List.filterMap_append]

/-- A record written by the `end` listener is built from the model output by
`resultOf` and `suggestionOf`. -/
theorem storeWrites_emit (env : Env) (s : ReqState) (ev : StreamEvent)
    (w : String × PredictionRecord) (hw : w ∈ storeWrites (emit env s ev).trace) :
    w ∈ storeWrites s.trace ∨
      ∃ predictions, w.2.result = resultOf predictions ∧
        w.2.suggestion = suggestionOf (resultOf predictions) := by
  cases ev with
  | data chunk => exact Or.inl (by simpa [emit, onData] using hw)
  | error err =>
    left
    simpa [emit, onError, storeWrites_append, storeWrites] using hw
  | end_ =>
    simp only [emit, onEnd] at hw
    cases hp : env.predict s.chunks.flatten with
    | error e =>
      left
      simpa [hp, storeWrites_append, storeWrites] using hw
    | ok predictions =>
      simp only [hp] at hw
      cases hd : env.docSet env.randomId
          { result := resultOf predictions, suggestion := suggestionOf (resultOf predictions),
            createdAt := env.now } with
      | error e =>
        simp only [hd, storeWrites_append, List.mem_append] at hw
        rcases hw with hw | hw
        · exact Or.inl hw
        · right
          refine ⟨predictions, ?_⟩
          simp [storeWrites] at hw
          subst hw
          exact ⟨rfl, rfl⟩
      | ok u =>
        simp only [hd, storeWrites_append, List.mem_append] at hw
        rcases hw with hw | hw
        · exact Or.inl hw
        · right
          refine ⟨predictions, ?_⟩
          simp [storeWrites] at hw
          subst hw
          exact ⟨rfl, rfl⟩

theorem storeWrites_foldl (env : Env) (events : List StreamEvent) (s : ReqState)
    (w : String × PredictionRecord) (hw : w ∈ storeWrites (events.foldl (emit env) s).trace) :
    w ∈ storeWrites s.trace ∨
      ∃ predictions, w.2.result = resultOf predictions ∧
        w.2.suggestion = suggestionOf (resultOf predictions) := by
  induction events generalizing s with
  | nil => exact Or.inl hw
  | cons ev rest ih =>
    rcases ih (emit env s ev) hw with h | h
    · exact storeWrites_emit env s ev w h
    · exact Or.inr h

theorem storeWrites_logged (logged : List String) (v : Option Response) :
    storeWrites (logged.map Effect.log ++ [Effect.respond v]) = [] := by
  induction logged with
  | nil => rfl
  | cons a rest ih => simp [storeWrites]

theorem predictCalls_logged (logged : List String) (v : Option Response) :
    predictCalls (logged.map Effect.log ++ [Effect.respond v]) = [] := by
  induction logged with
  | nil => rfl
  | cons a rest ih => simp [predictCalls]

/-- Every record a request writes is built by `resultOf` and `suggestionOf`. -/
theorem storeWrites_runRequest (env : Env) (payload : Payload) (events : List StreamEvent)
    (w : String × PredictionRecord) (hw : w ∈ storeWrites (runRequest env payload events).trace) :
    ∃ predictions, w.2.result = resultOf predictions ∧
      w.2.suggestion = suggestionOf (resultOf predictions) := by
  unfold runRequest at hw
  simp only at hw
  split at hw
  · rcases storeWrites_foldl env events _ w hw with h | h
    · simp [storeWrites_logged] at h
    · exact h
  · simp [storeWrites_logged] at hw

/-! ### C1 -/

/-- C1: the Result Recorder of the /predict handler labels a model output by
its first scalar p: "Cancer" with "Segera periksa ke dokter!" when p > 0.5
(plus infinity included), "Non-cancer" with "Penyakit kanker tidak
terdeteksi." when p <= 0.5 (0.5 itself and minus infinity included); whatever
the output, the pair is one of these two, and every record a request writes
to the store carries such a pair, its suggestion being the fixed function of
its result. -/
theorem recorder_threshold (rest : List JSNum) :
    (∀ q : ℚ, 1 / 2 < q →
      resultOf (.fin q :: rest) = "Cancer" ∧
      suggestionOf (resultOf (.fin q :: rest)) = "Segera periksa ke dokter!") ∧
    (∀ q : ℚ, q ≤ 1 / 2 →
      resultOf (.fin q :: rest) = "Non-cancer" ∧
      suggestionOf (resultOf (.fin q :: rest)) = "Penyakit kanker tidak terdeteksi.") ∧
    (resultOf (.posInf :: rest) = "Cancer" ∧ resultOf (.negInf :: rest) = "Non-cancer") ∧
    (∀ predictions : List JSNum,
      InSync (resultOf predictions) (suggestionOf (resultOf predictions))) ∧
    (∀ (env : Env) (payload : Payload) (events : List StreamEvent)
        (w : String × PredictionRecord),
      w ∈ storeWrites (runRequest env payload events).trace →
        InSync w.2.result w.2.suggestion ∧ w.2.suggestion = suggestionOf w.2.result) := by
  refine ⟨?_, ?_, ?_, inSync_resultOf, ?_⟩
  · intro q hq
    have hgt : JSNum.gt (.fin q) half = true := by
      simp only [half, JSNum.gt]
      exact decide_eq_true hq
    have h : resultOf (.fin q :: rest) = "Cancer" := by
      simp [resultOf, firstScalar, hgt]
    rw [h]
    exact ⟨rfl, by simp [suggestionOf]⟩
  · intro q hq
    have hgt : JSNum.gt (.fin q) half = false := by
      simp only [half, JSNum.gt]
      exact decide_eq_false (not_lt.mpr hq)
    have h : resultOf (.fin q :: rest) = "Non-cancer" := by
      simp [resultOf, firstScalar, hgt]
    rw [h]
    exact ⟨rfl, by simp [suggestionOf]⟩
  · constructor <;> simp [resultOf, firstScalar, half, JSNum.gt]
  · intro env payload events w hw
    obtain ⟨predictions, hr, hs⟩ := storeWrites_runRequest env payload events w hw
    rw [hs, hr]
    exact ⟨inSync_resultOf predictions, rfl⟩

/-- C1 at the boundary: the first scalar 0.5 gives "Non-cancer" and its
advisory. -/
theorem recorder_threshold_witness :
    resultOf [.fin (1 / 2)] = "Non-cancer" ∧
    suggestionOf (resultOf [.fin (1 / 2)]) = "Penyakit kanker tidak terdeteksi." :=
  (recorder_threshold []).2.1 (1 / 2) (le_refl _)

/-! ### The handler's own return value -/

theorem gt_half_fin (q : ℚ) : JSNum.gt (.fin q) half = decide (1 / 2 < q) := rfl

/-- Whenever the handler registers its listeners, the value it returns is
`undefined`, whatever the stream, the model and the store do afterwards. -/
theorem runRequest_listening (env : Env) (payload : Payload) (events : List StreamEvent)
    (h : (handler payload).listening = true) :
    (runRequest env payload events).response = none := by
  unfold runRequest
  simp only
  unfold handler at h ⊢
  cases hi : payload.image with
  | none => simp [hi] at h
  | some image =>
    simp only [hi] at h ⊢
    split at h
    · simp at h
    · split at h
      · simp [*]
      · simp at h

/-- A request that leaves the handler with a value wrote nothing and called
no inference. -/
theorem runRequest_not_listening (env : Env) (payload : Payload) (events : List StreamEvent)
    (h : (handler payload).listening = false) :
    predictCalls (runRequest env payload events).trace = [] ∧
      storeWrites (runRequest env payload events).trace = [] := by
  unfold runRequest
  simp [h, predictCalls_logged, storeWrites_logged]

/-! ### C2 -/

/-- C2, evaluated on a PNG upload of two chunks that ends normally, with a
model answering 0.9 and a store that accepts the write: the handler returns
`undefined`, not the success object; the success object is the return value
of the `end` listener, which the emitter drops; the store receives one write,
keyed by the drawn id, carrying "Cancer" and its advisory. -/
theorem predict_success_returns_undefined :
    (runRequest envCancer pngUpload [.data [137, 80], .data [78, 71], .end_]).response = none ∧
    (runRequest envCancer pngUpload [.data [137, 80], .data [78, 71], .end_]).dropped =
      [{ status := "success", message := "Model is predicted successfully",
         data := some { id := "k3x9q0z", result := "Cancer",
                        suggestion := "Segera periksa ke dokter!",
                        createdAt := "2024-01-01T00:00:00.000Z" } }] ∧
    storeWrites
        (runRequest envCancer pngUpload [.data [137, 80], .data [78, 71], .end_]).trace =
      [("k3x9q0z", { result := "Cancer", suggestion := "Segera periksa ke dokter!",
                     createdAt := "2024-01-01T00:00:00.000Z" })] ∧
    predictCalls
        (runRequest envCancer pngUpload [.data [137, 80], .data [78, 71], .end_]).trace =
      [[137, 80, 78, 71]] := by
  have hgt : JSNum.gt (.fin (9 / 10)) half = true := by
    rw [gt_half_fin]; norm_num
  have hr : resultOf [.fin (9 / 10)] = "Cancer" := by
    simp [resultOf, firstScalar, hgt]
  have hs : suggestionOf "Cancer" = "Segera periksa ke dokter!" := by decide
  refine ⟨by decide, ?_, ?_, ?_⟩ <;>
    simp [runRequest, handler, pngUpload, invalidFormat, startsWith, emit, onData, onEnd,
      envCancer, hr, hs, storeWrites, predictCalls]

/-! ### C3 -/

/-- C3: a POST /predict request whose payload has no image field is answered
with exactly the object of status "fail" and message "Image not provided",
and the request performs no call of predict and no store write, whatever the
stream, the model and the store would do. -/
theorem missing_image_fails (env : Env) (events : List StreamEvent) :
    (runRequest env { image := none } events).response =
      some { status := "fail", message := "Image not provided", data := none } ∧
    predictCalls (runRequest env { image := none } events).trace = [] ∧
    storeWrites (runRequest env { image := none } events).trace = [] := by
  refine ⟨rfl, ?_⟩
  exact runRequest_not_listening env { image := none } events rfl

/-! ### C4 -/

/-- C4: for a POST /predict request with a present image field, the handler
returns the validation failure whose message begins with "Invalid image
format", with no call of predict and no store write, if and only if the
metadata object is missing, or its mimetype is missing or empty, or the
mimetype does not begin with "image/"; a mimetype that begins with "image/"
is never answered with that failure. -/
theorem invalid_format_iff (env : Env) (image : ImageField) (events : List StreamEvent) :
    (((runRequest env { image := some image } events).response =
          some { status := "fail",
                 message := "Invalid image format. Please upload a valid image.",
                 data := none } ∧
        predictCalls (runRequest env { image := some image } events).trace = [] ∧
        storeWrites (runRequest env { image := some image } events).trace = []) ↔
      (image.hapi = none ∨
        ∃ m, image.hapi = some m ∧
          (m.mimetype = none ∨ m.mimetype = some "" ∨
            ∃ mt, m.mimetype = some mt ∧ startsWith mt "image/" = false))) ∧
    startsWith "Invalid image format. Please upload a valid image." "Invalid image format"
      = true ∧
    (∀ m mt, image.hapi = some m → m.mimetype = some mt → startsWith mt "image/" = true →
      (runRequest env { image := some image } events).response ≠
        some { status := "fail",
               message := "Invalid image format. Please upload a valid image.",
               data := none }) := by
  have hinv : invalidFormat image = true ↔
      (image.hapi = none ∨
        ∃ m, image.hapi = some m ∧
          (m.mimetype = none ∨ m.mimetype = some "" ∨
            ∃ mt, m.mimetype = some mt ∧ startsWith mt "image/" = false)) := by
    unfold invalidFormat
    cases hh : image.hapi with
    | none => simp
    | some m =>
      cases hm : m.mimetype with
      | none => simp [hm]
      | some mt =>
        by_cases he : mt = ""
        · subst he
          simp [hm]
        · simp [hm, he]
  have hresp : (runRequest env { image := some image } events).response =
        some invalidImageFormat ↔ invalidFormat image = true := by
    unfold runRequest handler
    simp only
    by_cases hi : invalidFormat image = true
    · simp [hi]
    · by_cases hst : image.isStream = true
      · simp [hi, hst]
      · simp only [hi, hst, if_false, Bool.false_eq_true, iff_false]
        decide
  refine ⟨?_, by decide, ?_⟩
  · rw [← hinv]
    constructor
    · intro h
      exact hresp.mp h.1
    · intro h
      refine ⟨hresp.mpr h, ?_⟩
      apply runRequest_not_listening
      simp [handler, h]
  · intro m mt hm hmt hpre hcontra
    have h1 := hresp.mp hcontra
    have h2 := hinv.mp h1
    rcases h2 with h2 | ⟨m', hm', h2⟩
    · simp [hm] at h2
    · rw [hm] at hm'
      cases hm'
      rcases h2 with h2 | h2 | ⟨mt', hmt', h2⟩
      · simp [hmt] at h2
      · rw [hmt] at h2
        cases h2
        simp [startsWith] at hpre
      · rw [hmt] at hmt'
        cases hmt'
        simp [hpre] at h2

/-- C4 on two inputs: "text/plain" is answered with the validation failure,
"image/png" is not. -/
theorem invalid_format_iff_witness :
    (runRequest envCancer
        { image := some { hapi := some { mimetype := some "text/plain" }, isStream := true } }
        [.data [104, 105], .end_]).response =
      some { status := "fail",
             message := "Invalid image format. Please upload a valid image.",
             data := none } ∧
    (runRequest envCancer
        { image := some { hapi := some { mimetype := some "image/png" }, isStream := true } }
        [.data [137, 80], .end_]).response ≠
      some { status := "fail",
             message := "Invalid image format. Please upload a valid image.",
             data := none } :=
  ⟨((invalid_format_iff envCancer
        { hapi := some { mimetype := some "text/plain" }, isStream := true }
        [.data [104, 105], .end_]).1.mpr
      (Or.inr ⟨{ mimetype := some "text/plain" }, rfl,
        Or.inr (Or.inr ⟨"text/plain", rfl, by decide⟩)⟩)).1,
   (invalid_format_iff envCancer
        { hapi := some { mimetype := some "image/png" }, isStream := true }
        [.data [137, 80], .end_]).2.2 { mimetype := some "image/png" } "image/png" rfl rfl
      (by decide)⟩

/-! ### C5 -/

/-- C5, evaluated on a PNG upload that ends normally, with a model answering
0.9 and a store that refuses the write: the handler returns `undefined`, and
its promise settles before the call of predict and before the write; the
object of status "error" is the return value of the `end` listener, which the
emitter drops. -/
theorem write_failure_returns_undefined :
    (runRequest envWriteFails pngUpload [.data [137, 80], .end_]).response = none ∧
    (runRequest envWriteFails pngUpload [.data [137, 80], .end_]).trace =
      [.log "Uploaded image:", .respond none, .predict [137, 80],
       .docSet "predictions" "k3x9q0z"
         { result := "Cancer", suggestion := "Segera periksa ke dokter!",
           createdAt := "2024-01-01T00:00:00.000Z" },
       .log "Error during prediction:"] ∧
    (runRequest envWriteFails pngUpload [.data [137, 80], .end_]).dropped =
      [{ status := "error", message := "An error occurred while processing your request.",
         data := none }] := by
  have hgt : JSNum.gt (.fin (9 / 10)) half = true := by
    rw [gt_half_fin]; norm_num
  have hr : resultOf [.fin (9 / 10)] = "Cancer" := by
    simp [resultOf, firstScalar, hgt]
  have hs : suggestionOf "Cancer" = "Segera periksa ke dokter!" := by decide
  refine ⟨by decide, ?_, ?_⟩ <;>
    simp [runRequest, handler, pngUpload, invalidFormat, startsWith, emit, onData, onEnd,
      envWriteFails, envCancer, hr, hs, processingError]

/-! ### C8 -/

/-- C8, evaluated on a PNG upload whose stream delivers one chunk and then
reports an error: the handler returns `undefined`, an absent value, and it
has done so before the error; the object of status "fail" is the return value
of the `error` listener, which the emitter drops. Predict is not called. -/
theorem stream_error_returns_undefined :
    (runRequest envCancer pngUpload [.data [137, 80], .error "ECONNRESET"]).response = none ∧
    (runRequest envCancer pngUpload [.data [137, 80], .error "ECONNRESET"]).trace =
      [.log "Uploaded image:", .respond none, .log "Error reading the image stream:"] ∧
    (runRequest envCancer pngUpload [.data [137, 80], .error "ECONNRESET"]).dropped =
      [{ status := "fail", message := "Error processing the image", data := none }] ∧
    predictCalls
      (runRequest envCancer pngUpload [.data [137, 80], .error "ECONNRESET"]).trace = [] := by
  decide

/-! ### C9 -/

/-- C9: through the onPreResponse extension, a framework error with message
m, status code c and payload p is sent as the envelope of status "error",
message m and data p, with HTTP status code c; a response that is not a
framework error is passed through unchanged. -/
theorem onPreResponse_envelope (r : LifecycleResponse) :
    (∀ message output, r = .boom message output →
      onPreResponse r =
        .takeover { status := "error", message := message, data := output.payload }
          output.statusCode ∧
      sendAfterExt r =
        .envelope { status := "error", message := message, data := output.payload }
          output.statusCode) ∧
    (r.isBoom = false → onPreResponse r = .continue_ ∧ sendAfterExt r = .unchanged r) := by
  constructor
  · rintro message output rfl
    exact ⟨rfl, rfl⟩
  · intro h
    cases r with
    | boom message output => simp [LifecycleResponse.isBoom] at h
    | plain source code => exact ⟨rfl, rfl⟩

/-- C9 on a 404 framework error and on an ordinary response. -/
theorem onPreResponse_envelope_witness :
    sendAfterExt (.boom "Not Found"
        { statusCode := 404,
          payload := { statusCode := 404, error := "Not Found", message := "Not Found" } }) =
      .envelope { status := "error", message := "Not Found",
                  data := { statusCode := 404, error := "Not Found", message := "Not Found" } }
        404 ∧
    sendAfterExt (.plain imageNotProvided 200) = .unchanged (.plain imageNotProvided 200) :=
  ⟨((onPreResponse_envelope _).1 "Not Found"
      { statusCode := 404,
        payload := { statusCode := 404, error := "Not Found", message := "Not Found" } }
      rfl).2,
   ((onPreResponse_envelope (.plain imageNotProvided 200)).2 rfl).2⟩

/-! ### C10 -/

/-- C10: for every request and every state of the model and the store, the
GET /health handler returns exactly the object of status "success" and
message "Server is running smoothly"; two calls agree whatever the requests
and the states are. -/
theorem health_constant (s₁ s₂ : ServerState) (r₁ r₂ : Request) :
    healthHandler s₁ r₁ =
      { status := "success", message := "Server is running smoothly", data := none } ∧
    healthHandler s₁ r₁ = healthHandler s₂ r₂ :=
  ⟨rfl, rfl⟩

/-! ### C7 -/

/-- C7: in the startup sequence the server is created and started only
after loadModel has completed successfully. In every run in which loadModel
rejects with e, the trace has no server creation, no route registration and
no server.start, the process is not listening, and the rejection reaches the
unhandledRejection handler: the run is loadModel, the log of e, and
process.exit(1), with exit code 1. Conversely a trace that contains
server.start or a server creation begins with a successful loadModel. -/
theorem startup_requires_model (env : BootEnv) :
    (∀ e, env.credentials = .ok () → env.loadModel = .error e →
      (main env).trace = [.loadModel, .log e, .exit 1] ∧
      (main env).exitCode = some 1 ∧
      (main env).listening = false ∧
      BootAction.start ∉ (main env).trace ∧
      (∀ port host, BootAction.createServer port host ∉ (main env).trace) ∧
      (∀ method path, BootAction.route method path ∉ (main env).trace)) ∧
    (∀ a, a ∈ (main env).trace →
      (a = BootAction.start ∨ ∃ port host, a = BootAction.createServer port host) →
      env.loadModel = .ok () ∧
        ∃ rest, (main env).trace = .loadModel :: .log "Model loaded!" :: rest) ∧
    ((main env).listening = true → env.loadModel = .ok () ∧ env.start = .ok ()) := by
  refine ⟨?_, ?_, ?_⟩
  · intro e hc hl
    simp [main, init, hc, hl]
  · intro a ha hkind
    cases hc : env.credentials with
    | error e => simp [main, hc] at ha
    | ok u =>
      cases hl : env.loadModel with
      | error e =>
        simp [main, init, hc, hl] at ha
        rcases ha with ha | ha | ha <;> subst ha <;> simp at hkind
      | ok v =>
        refine ⟨rfl, ?_⟩
        cases hs : env.start with
        | error e => simp [main, init, hc, hl, hs]
        | ok w => simp [main, init, hc, hl, hs]
  · intro h
    cases hc : env.credentials with
    | error e => simp [main, hc] at h
    | ok u =>
      cases hl : env.loadModel with
      | error e => simp [main, init, hc, hl] at h
      | ok v =>
        cases hs : env.start with
        | error e => simp [main, init, hc, hl, hs] at h
        | ok w => exact ⟨rfl, rfl⟩

/-- C7 on a startup where the model fetch is refused. -/
theorem startup_requires_model_witness :
    (main bootModelDown).trace = [.loadModel, .log "fetch failed", .exit 1] ∧
    (main bootModelDown).exitCode = some 1 ∧
    (main bootModelDown).listening = false ∧
    BootAction.start ∉ (main bootModelDown).trace ∧
    (∀ port host, BootAction.createServer port host ∉ (main bootModelDown).trace) ∧
    (∀ method path, BootAction.route method path ∉ (main bootModelDown).trace) :=
  (startup_requires_model bootModelDown).1 "fetch failed" rfl rfl

/-! ### C6 -/

/-- C6 as stated fails: a two-frame GIF decodes to a 4-D tensor and the
tensor that predict builds from it has the 5-D shape [1, 2, 224, 224, 3]. -/
theorem tensor_shape_counterexample :
    predictTensor twoFrameGif = .ok [1, 2, 224, 224, 3] ∧
    predictTensor twoFrameGif ≠ .ok [1, 224, 224, 3] := by
  have h : predictTensor twoFrameGif = .ok [1, 2, 224, 224, 3] := rfl
  refine ⟨h, ?_⟩
  rw [h]
  intro hc
  injection hc with hc
  simp at hc

/-- C6 amended: for every decodable image that decodes to a 3-D tensor (any
format but GIF), whatever its height, width and stored channel count, the
tensor that predict passes to model.predict has shape exactly
[1, 224, 224, 3]; for a GIF of n frames, which decodes to a 4-D tensor, the
shape is [1, n, 224, 224, 3]. -/
theorem tensor_shape_still (img : ImageFile) :
    (img.format ≠ .gif → predictTensor img = .ok [1, 224, 224, 3]) ∧
    (img.format = .gif → predictTensor img = .ok [1, img.frames, 224, 224, 3]) := by
  constructor
  · intro h
    cases hf : img.format <;>
      simp_all [predictTensor, decodeImage, resizeBilinear, expandDims, toFloat, divScalar]
  · intro h
    simp [predictTensor, decodeImage, resizeBilinear, expandDims, toFloat, divScalar, h]

/-- C6 amended, on a 600 by 450 PNG that stores four channels. -/
theorem tensor_shape_still_witness : predictTensor rgbaPng = .ok [1, 224, 224, 3] :=
  (tensor_shape_still rgbaPng).1 (by decide)

end Asclepius
